import Mathlib

/-!
# dcart-auth: command handling, HTTP responder, user repository and start-up wiring

A shallow embedding of

* `internal/application/services/user_command_handler.go` (`HandleRegisterUser`),
* `pkg/httputil/response/json.go` (`RespondWithError`, `RespondWithJSON`),
* `internal/adapters/secondary/postgres/user_repository.go`
  (`CreateUser`, `GetUserByID`, `GetUserByUsername`),
* the token wiring of `cmd/main.go`.

Go `error` values are modelled by `GoError`, a nil error by `none`.  Calls made
on collaborators that the code only knows through an interface (the event
store, the `http.ResponseWriter`, the logger) are recorded in call lists, in
program order.
-/

namespace DcartAuth

/-! ## Go errors -/

/-- Go `error` values.  Sentinels are values made by `errors.New` and compared
by identity; `wrap` is an error whose `Unwrap` returns `inner`
(`fmt.Errorf("...%w", inner)`). -/
inductive GoError where
  /-- The sentinel `sql.ErrNoRows` of `database/sql`. -/
  | sqlErrNoRows
  /-- The sentinel `userDomain.ErrUserNotFound`. -/
  | ErrUserNotFound
  /-- The sentinel `userDomain.ErrUserAlreadyExists`. -/
  | ErrUserAlreadyExists
  /-- Any other leaf error, identified by its message. -/
  | other (msg : String)
  /-- An error wrapping another one. -/
  | wrap (msg : String) (inner : GoError)
  deriving DecidableEq, Repr

namespace GoError

/-- Go's `errors.Is(err, target)` for a sentinel target: walk the `Unwrap`
chain of `err` and compare each link with `target`. -/
def errorsIs : GoError → GoError → Bool
  | wrap msg inner, target =>
      decide (wrap msg inner = target) || errorsIs inner target
  | err, target => decide (err = target)

/-- Whether an error comes from the storage layer below the repository
(`database/sql`, the driver, or a wrapping of anything): every error except the
two sentinels which the domain package declares for the repository's own
answers. -/
def isStorageError : GoError → Bool
  | ErrUserNotFound => false
  | ErrUserAlreadyExists => false
  | _ => true

end GoError

/-- Go's `context.Context`, passed through to the collaborators untouched. -/
structure Context where
  cancelled : Bool
  deriving DecidableEq, Repr

/-! ## Domain model (package `userDomain`) -/

/-- Modelled from the spec: `DomainEvent` of section 3 (the domain package is
not among the sources): type, aggregate id, post-apply version, payload and
time of occurrence. -/
structure DomainEvent where
  eventType : String
  aggregateID : String
  version : Nat
  payload : List (String × String)
  occurredAt : Nat
  deriving DecidableEq, Repr

/-- Modelled from the spec: the `User` aggregate of section 3 (the domain
package is not among the sources): id, username, password hash, version and
the transient buffer of uncommitted events. -/
structure User where
  id : String
  username : String
  passwordHash : String
  version : Nat
  uncommittedEvents : List DomainEvent
  deriving DecidableEq, Repr

namespace User

/-- Modelled from the spec: `(*User).GetID`, the accessor of the aggregate id. -/
def GetID (u : User) : String := u.id

/-- Modelled from the spec: `(*User).GetUncommittedChanges`, the accessor of the
uncommitted-events buffer, in the order the events were produced. -/
def GetUncommittedChanges (u : User) : List DomainEvent := u.uncommittedEvents

/-- Modelled from the spec: `(*User).ClearUncommittedChanges` empties the
transient buffer ("cleared after successful commit") and touches nothing
else. -/
def ClearUncommittedChanges (u : User) : User := { u with uncommittedEvents := [] }

end User

/-- The command `userDomain.RegisterUserCommand`; the handler reads its
`Username` and `Password`. -/
structure RegisterUserCommand where
  Username : String
  Password : String
  deriving DecidableEq, Repr

/-- The name under which a registration event is recorded. -/
def UserRegistered : String := "UserRegistered"

/-- What the spec-level registration needs from outside the aggregate: the id
generator, the password hasher, the password policy and the clock. -/
structure Registration where
  generateID : String → String
  hashPassword : String → Except GoError String
  passwordOk : String → Bool
  now : Nat

/-- Modelled from the spec: folding one event into the in-memory aggregate
(section 4.2): the version becomes the event's version and a `UserRegistered`
event sets id, username and password hash from its payload. -/
def User.apply (u : User) (e : DomainEvent) : User :=
  if e.eventType = UserRegistered then
    { u with
      id := e.aggregateID
      username := (e.payload.lookup "username").getD u.username
      passwordHash := (e.payload.lookup "passwordHash").getD u.passwordHash
      version := e.version }
  else
    { u with version := e.version }

/-- Modelled from the spec: `userDomain.NewUser` (the domain package is not
among the sources).  Section 4.2: registration validates that the username is
non-empty and that the password meets the policy, failing with
`InvalidUsername` / `InvalidPassword`; on success it produces exactly one
`UserRegistered` event carrying the new id, username and password hash, appends
it to the uncommitted events and folds it into the new, empty aggregate. -/
def specNewUser (r : Registration) (username password : String) : Except GoError User :=
  if username = "" then .error (.other "InvalidUsername")
  else if !r.passwordOk password then .error (.other "InvalidPassword")
  else
    match r.hashPassword password with
    | .error e => .error e
    | .ok hash =>
      let id := r.generateID username
      let empty : User :=
        { id := "", username := "", passwordHash := "", version := 0, uncommittedEvents := [] }
      let ev : DomainEvent :=
        { eventType := UserRegistered
          aggregateID := id
          version := empty.version + 1
          payload := [("id", id), ("username", username), ("passwordHash", hash)]
          occurredAt := r.now }
      .ok { empty.apply ev with uncommittedEvents := empty.uncommittedEvents ++ [ev] }

/-! ## Event store port and the command handler -/

/-- The port `outbound.EventStore` as the handler uses it: one method,
`SaveEvents(ctx, aggregateID, events) error`, acting on a store state `σ`. -/
structure EventStore (σ : Type) where
  SaveEvents : σ → Context → String → List DomainEvent → Option GoError × σ

/-- Calls a command handler can make on its collaborators.  `Publish` is the
Event Publisher port that `cmd/main.go` wires into the `command` package's
handler. -/
inductive Call where
  | NewUser (username password : String)
  | SaveEvents (ctx : Context) (aggregateID : String) (events : List DomainEvent)
  | Publish (event : DomainEvent)
  | ClearUncommittedChanges
  deriving DecidableEq, Repr

/-- What one run of the handler leaves behind: the returned pair
`(*User, error)`, the event store's state and the calls made, in order. -/
structure Run (σ : Type) where
  user : Option User
  err : Option GoError
  store : σ
  calls : List Call

/-- The handler `userCommandHandler`: its only field is the event store. -/
structure userCommandHandler (σ : Type) where
  eventStore : EventStore σ

/-- The constructor `NewUserCommandHandler(eventStore)`. -/
def NewUserCommandHandler {σ : Type} (eventStore : EventStore σ) : userCommandHandler σ :=
  { eventStore := eventStore }

/-- The method `(*userCommandHandler).HandleRegisterUser(ctx, cmd)`, run from
the event store state `s`.  The package function `userDomain.NewUser` is taken
as the parameter `NewUser`. -/
def HandleRegisterUser {σ : Type} (NewUser : String → String → Except GoError User)
    (h : userCommandHandler σ) (ctx : Context) (cmd : RegisterUserCommand) (s : σ) : Run σ :=
  match NewUser cmd.Username cmd.Password with
  | .error err =>
    { user := none, err := some err, store := s,
      calls := [.NewUser cmd.Username cmd.Password] }
  | .ok user =>
    match h.eventStore.SaveEvents s ctx user.GetID user.GetUncommittedChanges with
    | (some err, s') =>
      { user := none, err := some err, store := s',
        calls := [.NewUser cmd.Username cmd.Password,
                  .SaveEvents ctx user.GetID user.GetUncommittedChanges] }
    | (none, s') =>
      { user := some user.ClearUncommittedChanges, err := none, store := s',
        calls := [.NewUser cmd.Username cmd.Password,
                  .SaveEvents ctx user.GetID user.GetUncommittedChanges,
                  .ClearUncommittedChanges] }

/-- Modelled from the spec: an in-memory event store (section 4.3; the concrete
store is not among the sources).  The pair `(aggregateID, version)` is unique:
an append that would repeat one fails with `ConcurrencyConflict` and writes
nothing; otherwise all events of the batch are appended. -/
def memoryEventStore : EventStore (List DomainEvent) where
  SaveEvents := fun records _ aggregateID events =>
    if events.any (fun e => records.any
        (fun r => r.aggregateID == aggregateID && r.version == e.version)) then
      (some (.other "ConcurrencyConflict"), records)
    else
      (none, records ++ events)

/-- The `SaveEvents` calls among a list of calls. -/
def saveEventsCalls (calls : List Call) : List Call :=
  calls.filter fun c => match c with
    | .SaveEvents _ _ _ => true
    | _ => false

/-- The events handed to the Event Publisher among a list of calls. -/
def publishedEvents (calls : List Call) : List DomainEvent :=
  calls.filterMap fun c => match c with
    | .Publish e => some e
    | _ => none

/-! ## HTTP responder (package `response`) -/

namespace GoError

/-- The method `Error()` of an error value: its message. -/
def Error : GoError → String
  | sqlErrNoRows => "sql: no rows in result set"
  | ErrUserNotFound => "user not found"
  | ErrUserAlreadyExists => "user already exists"
  | other msg => msg
  | wrap msg _ => msg

end GoError

/-- The package variable `ErrUnknown = errors.New("unknown")`. -/
def ErrUnknown : GoError := .other "unknown"

/-- The constant `http.StatusInternalServerError`. -/
def StatusInternalServerError : Int := 500

/-- Calls made on the `http.ResponseWriter`. -/
inductive WriterCall where
  /-- The call `w.Header().Set(key, value)`. -/
  | HeaderSet (key value : String)
  /-- The call `w.WriteHeader(code)`. -/
  | WriteHeader (code : Int)
  /-- The call `w.Write(data)`. -/
  | Write (data : String)
  deriving DecidableEq, Repr

/-- Calls made on the responder's `*log.Logger`. -/
inductive LogCall where
  /-- The call `logger.Println(err)`. -/
  | Println (err : GoError)
  /-- The call `logger.Printf(format, arg)`. -/
  | Printf (format : String) (arg : String)
  deriving DecidableEq, Repr

/-- The response writer and the logger, each as the list of calls received so
far, oldest first. -/
structure Exchange where
  w : List WriterCall
  logger : List LogCall
  deriving DecidableEq, Repr

/-- The `payload interface{}` of `RespondWithJSON`: the package's own
`errorResponse` struct, or any other Go value, which is represented by what
`json.Marshal` returns for it. -/
inductive Payload where
  | errorResponse (Error : String)
  | other (marshalled : Except GoError String)

/-- A lower-case hexadecimal digit. -/
def hexDigit (n : Nat) : Char :=
  if n < 10 then Char.ofNat (48 + n) else Char.ofNat (87 + n)

/-- The six-character escape of a code point below 0x10000. -/
def unicodeEscape (n : Nat) : String :=
  String.mk [Char.ofNat 92, Char.ofNat 117, hexDigit (n / 4096 % 16), hexDigit (n / 256 % 16),
    hexDigit (n / 16 % 16), hexDigit (n % 16)]

/-- How `encoding/json` writes one character of a string, with the HTML
escaping that `json.Marshal` applies. -/
def encodeChar (c : Char) : String :=
  let n := c.toNat
  if n = 34 then String.mk [Char.ofNat 92, Char.ofNat 34]
  else if n = 92 then String.mk [Char.ofNat 92, Char.ofNat 92]
  else if n = 8 then String.mk [Char.ofNat 92, Char.ofNat 98]
  else if n = 12 then String.mk [Char.ofNat 92, Char.ofNat 102]
  else if n = 10 then String.mk [Char.ofNat 92, Char.ofNat 110]
  else if n = 13 then String.mk [Char.ofNat 92, Char.ofNat 114]
  else if n = 9 then String.mk [Char.ofNat 92, Char.ofNat 116]
  else if n < 32 ∨ n = 38 ∨ n = 60 ∨ n = 62 ∨ n = 8232 ∨ n = 8233 then unicodeEscape n
  else String.singleton c

/-- How `encoding/json` writes a Go string: a JSON string literal. -/
def encodeString (s : String) : String :=
  String.singleton (Char.ofNat 34) ++ String.join (s.toList.map encodeChar)
    ++ String.singleton (Char.ofNat 34)

/-- The call `json.Marshal(payload)`.  An `errorResponse` is a struct with the
single string field `Error`, tagged `json:"error"`: it is written as a JSON
object with the one key `error`, which cannot fail. -/
def jsonMarshal : Payload → Except GoError String
  | .errorResponse msg => .ok ("\x7b\"error\":" ++ encodeString msg ++ "\x7d")
  | .other marshalled => marshalled

mutual

/-- The method `(*httpResponder).RespondWithError(w, code, msg, err)`.  The
first argument bounds the depth of the call stack from here on; `none` means
the bound was reached. -/
def RespondWithError : Nat → Exchange → Int → String → Option GoError → Option Exchange
  | 0, _, _, _, _ => none
  | fuel + 1, x, code, msg, err =>
    let x1 : Exchange :=
      match err with
      | some e => { x with logger := x.logger ++ [.Println e] }
      | none => x
    let x2 : Exchange :=
      if code > 499 then
        { x1 with logger := x1.logger ++ [.Printf "Responding with 5XX error: %s" msg] }
      else x1
    RespondWithJSON fuel x2 code (.errorResponse msg)

/-- The method `(*httpResponder).RespondWithJSON(w, code, payload)`, with the
same bound on the depth of the call stack. -/
def RespondWithJSON : Nat → Exchange → Int → Payload → Option Exchange
  | 0, _, _, _ => none
  | fuel + 1, x, code, payload =>
    let x1 : Exchange := { x with w := x.w ++ [.HeaderSet "Content-Type" "application/json"] }
    match jsonMarshal payload with
    | .error err => RespondWithError fuel x1 StatusInternalServerError ErrUnknown.Error (some err)
    | .ok data => some { x1 with w := x1.w ++ [.WriteHeader code, .Write data] }

end

/-- The `WriteHeader` calls among the calls on a response writer. -/
def writeHeaderCalls (w : List WriterCall) : List WriterCall :=
  w.filter fun c => match c with
    | .WriteHeader _ => true
    | _ => false

/-! ## User repository (package `postgres`) -/

namespace Postgres

/-- A `uuid.UUID` value. -/
structure UUID where
  value : String
  deriving DecidableEq, Repr

/-- The domain user as the repository sees it (`userDomain.User` of the
repository's import path); `CreateUser` reads `Username` and `PasswordHash`. -/
structure User where
  ID : UUID
  Username : String
  PasswordHash : String
  deriving DecidableEq, Repr

/-- The row type `db.User` of the generated query layer. -/
structure DbUser where
  ID : UUID
  Username : String
  PasswordHash : String
  CreatedAt : Nat
  UpdatedAt : Nat
  deriving DecidableEq, Repr

/-- The argument `db.CreateUserParams` of the insert query. -/
structure CreateUserParams where
  Username : String
  PasswordHash : String
  deriving DecidableEq, Repr

/-- The generated query layer `*db.Queries` (package `db`, not among the
sources), over a database state `σ`.  Each query returns the pair
`(db.User, error)` of the Go call; `ToUserDomain` is the package function
`db.ToUserDomain`, which returns a `*userDomain.User`. -/
structure Queries (σ : Type) where
  CreateUser : σ → Context → CreateUserParams → (DbUser × Option GoError) × σ
  GetUserByID : σ → Context → UUID → (DbUser × Option GoError) × σ
  GetUserByUsername : σ → Context → String → (DbUser × Option GoError) × σ
  ToUserDomain : DbUser → Option User

/-- The struct `userRepository`: its only field is the query layer. -/
structure userRepository (σ : Type) where
  queries : Queries σ

/-- How a call ends: it returns, or it panics on dereferencing a nil
pointer. -/
inductive Outcome (α : Type) where
  | panic
  | ret (value : α)

/-- The returned pair `(*userDomain.User, error)` together with the database
state after the call. -/
structure Reply (σ : Type) where
  user : Option User
  err : Option GoError
  db : σ

/-- The method `(*userRepository).CreateUser(ctx, userObj)`; `userObj` is a
pointer, `none` being nil. -/
def CreateUser {σ : Type} (r : userRepository σ) (ctx : Context) (userObj : Option User)
    (s : σ) : Outcome (Reply σ) :=
  match userObj with
  | none => .panic
  | some userObj =>
    let params : CreateUserParams :=
      { Username := userObj.Username, PasswordHash := userObj.PasswordHash }
    match r.queries.CreateUser s ctx params with
    | ((dbUser, err), s') =>
      match err with
      | some err =>
        if GoError.errorsIs err .sqlErrNoRows then
          .ret { user := none, err := some .ErrUserAlreadyExists, db := s' }
        else
          .ret { user := none, err := some err, db := s' }
      | none => .ret { user := r.queries.ToUserDomain dbUser, err := none, db := s' }

/-- The method `(*userRepository).GetUserByID(ctx, userID)`; `userID` is a
pointer, `none` being nil. -/
def GetUserByID {σ : Type} (r : userRepository σ) (ctx : Context) (userID : Option UUID)
    (s : σ) : Outcome (Reply σ) :=
  match userID with
  | none => .panic
  | some userID =>
    match r.queries.GetUserByID s ctx userID with
    | ((dbUser, err), s') =>
      match err with
      | some err =>
        if GoError.errorsIs err .sqlErrNoRows then
          .ret { user := none, err := some .ErrUserNotFound, db := s' }
        else
          .ret { user := none, err := some err, db := s' }
      | none => .ret { user := r.queries.ToUserDomain dbUser, err := none, db := s' }

/-- The method `(*userRepository).GetUserByUsername(ctx, username)`. -/
def GetUserByUsername {σ : Type} (r : userRepository σ) (ctx : Context) (username : String)
    (s : σ) : Outcome (Reply σ) :=
  match r.queries.GetUserByUsername s ctx username with
  | ((dbUser, err), s') =>
    match err with
    | some err =>
      if GoError.errorsIs err .sqlErrNoRows then
        .ret { user := none, err := some .ErrUserNotFound, db := s' }
      else
        .ret { user := none, err := some err, db := s' }
    | none => .ret { user := r.queries.ToUserDomain dbUser, err := none, db := s' }

end Postgres

/-! ## Token wiring of `cmd/main.go` -/

/-- Go's `time.Duration`: a count of nanoseconds held in an `int64`. -/
abbrev Duration := Int

/-- The constant `time.Nanosecond`. -/
def Nanosecond : Duration := 1
/-- The constant `time.Microsecond`. -/
def Microsecond : Duration := 1000 * Nanosecond
/-- The constant `time.Millisecond`. -/
def Millisecond : Duration := 1000 * Microsecond
/-- The constant `time.Second`. -/
def Second : Duration := 1000 * Millisecond
/-- The constant `time.Minute`. -/
def Minute : Duration := 60 * Second
/-- The constant `time.Hour`. -/
def Hour : Duration := 60 * Minute

/-- Whether a value fits Go's `int64`, as a constant of type `time.Duration`
must. -/
def fitsInt64 (d : Int) : Bool := decide (-(2 : Int) ^ 63 ≤ d) && decide (d < (2 : Int) ^ 63)

/-- Whole seconds of a duration (`Duration.Seconds`, truncated). -/
def Duration.wholeSeconds (d : Duration) : Int := d / Second

/-- The token-related arguments that `main` passes to the constructors. -/
structure TokenWiring where
  /-- Second argument of `postgres.NewTokenRepository`. -/
  tokenRepoExpiry : Duration
  /-- First argument of `jwt.NewJWTService`. -/
  jwtIssuer : String
  /-- Third argument of `jwt.NewJWTService`. -/
  jwtValidity : Duration
  /-- First argument of `refresh.NewHexRefreshGenerator`. -/
  refreshTokenLead : String
  /-- Second argument of `refresh.NewHexRefreshGenerator`. -/
  refreshTokenLength : Nat

/-- The values wired in `main`: `24*7*time.Hour`, `"dcart"`, `time.Minute*15`,
`"dc_"` and `32`. -/
def mainTokenWiring : TokenWiring where
  tokenRepoExpiry := 24 * 7 * Hour
  jwtIssuer := "dcart"
  jwtValidity := Minute * 15
  refreshTokenLead := "dc_"
  refreshTokenLength := 32

/-! ## Sample data -/

/-- A registration environment: ids are the username under the `dcart`
namespace, the hasher tags the password, the policy asks for eight
characters. -/
def sampleRegistration : Registration where
  generateID := fun username => "dcart:" ++ username
  hashPassword := fun password => .ok ("hash:" ++ password)
  passwordOk := fun password => decide (8 ≤ password.length)
  now := 0

/-- A live request context. -/
def sampleContext : Context := { cancelled := false }

/-- The command registering `alice` with the password `correct-horse`. -/
def aliceCommand : RegisterUserCommand := { Username := "alice", Password := "correct-horse" }

/-- A command with an empty username. -/
def namelessCommand : RegisterUserCommand := { Username := "", Password := "correct-horse" }

/-- The event that registering `alice` produces. -/
def aliceRegistered : DomainEvent where
  eventType := "UserRegistered"
  aggregateID := "dcart:alice"
  version := 1
  payload := [("id", "dcart:alice"), ("username", "alice"),
    ("passwordHash", "hash:correct-horse")]
  occurredAt := 0

/-- The aggregate that registering `alice` creates, before its event is
saved. -/
def aliceUser : User where
  id := "dcart:alice"
  username := "alice"
  passwordHash := "hash:correct-horse"
  version := 1
  uncommittedEvents := [aliceRegistered]

/-- A handler over the in-memory event store. -/
def sampleHandler : userCommandHandler (List DomainEvent) :=
  NewUserCommandHandler memoryEventStore

/-- A response writer and a logger that have received no call yet. -/
def freshExchange : Exchange := { w := [], logger := [] }

/-- A payload that `json.Marshal` refuses (a channel). -/
def channelPayload : Payload := .other (.error (.other "json: unsupported type: chan int"))

/-- A payload that marshals to a JSON array. -/
def arrayPayload : Payload := .other (.ok "[1,2]")

/-- An infrastructure error carrying internal detail. -/
def connectionRefused : GoError :=
  .wrap "save events: dial tcp 10.0.0.5:5432: connection refused" (.other "connection refused")

/-- The error contract of one repository method, given what its query
returned (`query`), the sentinel the method answers with and what the method
returned (`out`).  On a nil query error the method returns the domain
conversion of the row and a nil error.  On a query error `e` it returns a nil
user together with the sentinel when `e` is or wraps `sql.ErrNoRows`, and with
`e` itself otherwise; and for a storage error `e` the sentinel is the answer
exactly when `e` is or wraps `sql.ErrNoRows`. -/
def Postgres.translatesNoRows {σ : Type} (sentinel : GoError)
    (toDomain : Postgres.DbUser → Option Postgres.User)
    (query : (Postgres.DbUser × Option GoError) × σ)
    (out : Postgres.Outcome (Postgres.Reply σ)) : Prop :=
  match query.1.2 with
  | none => out = .ret { user := toDomain query.1.1, err := none, db := query.2 }
  | some e =>
    (GoError.errorsIs e .sqlErrNoRows = true →
      out = .ret { user := none, err := some sentinel, db := query.2 }) ∧
    (GoError.errorsIs e .sqlErrNoRows = false →
      out = .ret { user := none, err := some e, db := query.2 }) ∧
    (e.isStorageError = true →
      (out = .ret { user := none, err := some sentinel, db := query.2 } ↔
        GoError.errorsIs e .sqlErrNoRows = true))

/-- A row with every field zero, as a failed query leaves it. -/
def Postgres.zeroRow : Postgres.DbUser :=
  { ID := ⟨""⟩, Username := "", PasswordHash := "", CreatedAt := 0, UpdatedAt := 0 }

/-- A query layer over a table held in memory.  A cancelled context fails every
query with a wrapped `context canceled`; a lookup that finds no row and an
insert whose username is taken return `sql.ErrNoRows`. -/
def Postgres.tableQueries : Postgres.Queries (List Postgres.DbUser) where
  CreateUser := fun table ctx params =>
    if ctx.cancelled then
      ((Postgres.zeroRow, some (.wrap "create user: context canceled" (.other "context canceled"))),
        table)
    else if table.any (fun row => row.Username == params.Username) then
      ((Postgres.zeroRow, some .sqlErrNoRows), table)
    else
      let row : Postgres.DbUser :=
        { ID := ⟨"id-" ++ params.Username⟩, Username := params.Username,
          PasswordHash := params.PasswordHash, CreatedAt := 0, UpdatedAt := 0 }
      ((row, none), table ++ [row])
  GetUserByID := fun table ctx userID =>
    if ctx.cancelled then
      ((Postgres.zeroRow, some (.wrap "get user: context canceled" (.other "context canceled"))),
        table)
    else
      match table.find? (fun row => row.ID == userID) with
      | some row => ((row, none), table)
      | none => ((Postgres.zeroRow, some .sqlErrNoRows), table)
  GetUserByUsername := fun table ctx username =>
    if ctx.cancelled then
      ((Postgres.zeroRow, some (.wrap "get user: context canceled" (.other "context canceled"))),
        table)
    else
      match table.find? (fun row => row.Username == username) with
      | some row => ((row, none), table)
      | none => ((Postgres.zeroRow, some .sqlErrNoRows), table)
  ToUserDomain := fun row =>
    some { ID := row.ID, Username := row.Username, PasswordHash := row.PasswordHash }

/-- A repository over the in-memory table. -/
def Postgres.tableRepository : Postgres.userRepository (List Postgres.DbUser) :=
  { queries := Postgres.tableQueries }

/-- The row of `alice`. -/
def Postgres.aliceRow : Postgres.DbUser :=
  { ID := ⟨"id-alice"⟩, Username := "alice", PasswordHash := "hash", CreatedAt := 0,
    UpdatedAt := 0 }

/-- The domain user `alice`. -/
def Postgres.alice : Postgres.User :=
  { ID := ⟨"id-alice"⟩, Username := "alice", PasswordHash := "hash" }

/-- A cancelled request context. -/
def cancelledContext : Context := { cancelled := true }

/-! ## Theorems: the command handler -/

section Handler

variable {σ : Type}

/-- The run of the handler when aggregate creation fails. -/
theorem HandleRegisterUser_of_newUser_error (NewUser : String → String → Except GoError User)
    (h : userCommandHandler σ) (ctx : Context) (cmd : RegisterUserCommand) (s : σ) (e : GoError)
    (hnew : NewUser cmd.Username cmd.Password = .error e) :
    HandleRegisterUser NewUser h ctx cmd s =
      { user := none, err := some e, store := s,
        calls := [.NewUser cmd.Username cmd.Password] } := by
  simp [HandleRegisterUser, hnew]

/-- The run of the handler when the aggregate is created and the append fails. -/
theorem HandleRegisterUser_of_save_error (NewUser : String → String → Except GoError User)
    (h : userCommandHandler σ) (ctx : Context) (cmd : RegisterUserCommand) (s s' : σ) (u : User)
    (e : GoError) (hnew : NewUser cmd.Username cmd.Password = .ok u)
    (hsave : h.eventStore.SaveEvents s ctx u.GetID u.GetUncommittedChanges = (some e, s')) :
    HandleRegisterUser NewUser h ctx cmd s =
      { user := none, err := some e, store := s',
        calls := [.NewUser cmd.Username cmd.Password,
                  .SaveEvents ctx u.GetID u.GetUncommittedChanges] } := by
  simp [HandleRegisterUser, hnew, hsave]

/-- The run of the handler when the aggregate is created and the append
succeeds. -/
theorem HandleRegisterUser_of_save_ok (NewUser : String → String → Except GoError User)
    (h : userCommandHandler σ) (ctx : Context) (cmd : RegisterUserCommand) (s s' : σ) (u : User)
    (hnew : NewUser cmd.Username cmd.Password = .ok u)
    (hsave : h.eventStore.SaveEvents s ctx u.GetID u.GetUncommittedChanges = (none, s')) :
    HandleRegisterUser NewUser h ctx cmd s =
      { user := some u.ClearUncommittedChanges, err := none, store := s',
        calls := [.NewUser cmd.Username cmd.Password,
                  .SaveEvents ctx u.GetID u.GetUncommittedChanges,
                  .ClearUncommittedChanges] } := by
  simp [HandleRegisterUser, hnew, hsave]

/-- The three ways a run of the handler can go. -/
theorem HandleRegisterUser_cases (NewUser : String → String → Except GoError User)
    (h : userCommandHandler σ) (ctx : Context) (cmd : RegisterUserCommand) (s : σ) :
    (∃ e, NewUser cmd.Username cmd.Password = .error e) ∨
    (∃ u e s', NewUser cmd.Username cmd.Password = .ok u ∧
      h.eventStore.SaveEvents s ctx u.GetID u.GetUncommittedChanges = (some e, s')) ∨
    (∃ u s', NewUser cmd.Username cmd.Password = .ok u ∧
      h.eventStore.SaveEvents s ctx u.GetID u.GetUncommittedChanges = (none, s')) := by
  cases hnew : NewUser cmd.Username cmd.Password with
  | error e => exact Or.inl ⟨e, rfl⟩
  | ok u =>
    right
    rcases hsave : h.eventStore.SaveEvents s ctx u.GetID u.GetUncommittedChanges with ⟨o, s'⟩
    cases o with
    | some e => exact Or.inl ⟨u, e, s', rfl, hsave⟩
    | none => exact Or.inr ⟨u, s', rfl, hsave⟩

/-- C1: `HandleRegisterUser` returns errors unchanged.  If `NewUser` fails with
`e` the result is the nil user and exactly `e`; if `NewUser` succeeds and
`SaveEvents` fails with `e'` the result is the nil user and exactly `e'`; a
non-nil user is returned only when both steps succeeded, and then the error is
nil. -/
theorem HandleRegisterUser_returns_errors_unchanged
    (NewUser : String → String → Except GoError User)
    (h : userCommandHandler σ) (ctx : Context) (cmd : RegisterUserCommand) (s : σ) :
    (∀ e, NewUser cmd.Username cmd.Password = .error e →
      (HandleRegisterUser NewUser h ctx cmd s).user = none ∧
      (HandleRegisterUser NewUser h ctx cmd s).err = some e) ∧
    (∀ u e' s', NewUser cmd.Username cmd.Password = .ok u →
      h.eventStore.SaveEvents s ctx u.GetID u.GetUncommittedChanges = (some e', s') →
      (HandleRegisterUser NewUser h ctx cmd s).user = none ∧
      (HandleRegisterUser NewUser h ctx cmd s).err = some e') ∧
    ((HandleRegisterUser NewUser h ctx cmd s).user ≠ none →
      (HandleRegisterUser NewUser h ctx cmd s).err = none ∧
      ∃ u s', NewUser cmd.Username cmd.Password = .ok u ∧
        h.eventStore.SaveEvents s ctx u.GetID u.GetUncommittedChanges = (none, s')) := by
  refine ⟨?_, ?_, ?_⟩
  · intro e hnew
    rw [HandleRegisterUser_of_newUser_error NewUser h ctx cmd s e hnew]
    exact ⟨rfl, rfl⟩
  · intro u e' s' hnew hsave
    rw [HandleRegisterUser_of_save_error NewUser h ctx cmd s s' u e' hnew hsave]
    exact ⟨rfl, rfl⟩
  · intro hu
    rcases HandleRegisterUser_cases NewUser h ctx cmd s with
      ⟨e, hnew⟩ | ⟨u, e, s', hnew, hsave⟩ | ⟨u, s', hnew, hsave⟩
    · rw [HandleRegisterUser_of_newUser_error NewUser h ctx cmd s e hnew] at hu
      exact absurd rfl hu
    · rw [HandleRegisterUser_of_save_error NewUser h ctx cmd s s' u e hnew hsave] at hu
      exact absurd rfl hu
    · rw [HandleRegisterUser_of_save_ok NewUser h ctx cmd s s' u hnew hsave]
      exact ⟨rfl, u, s', hnew, hsave⟩

/-- C4: `HandleRegisterUser` never retries.  In every run it calls `SaveEvents`
at most once; exactly once when aggregate creation succeeds, with the new
user's id and exactly the user's uncommitted events, the store being left as
that single call left it; and not at all when creation fails, the store then
being untouched. -/
theorem HandleRegisterUser_saves_at_most_once
    (NewUser : String → String → Except GoError User)
    (h : userCommandHandler σ) (ctx : Context) (cmd : RegisterUserCommand) (s : σ) :
    (saveEventsCalls (HandleRegisterUser NewUser h ctx cmd s).calls).length ≤ 1 ∧
    (∀ u, NewUser cmd.Username cmd.Password = .ok u →
      saveEventsCalls (HandleRegisterUser NewUser h ctx cmd s).calls =
        [.SaveEvents ctx u.GetID u.GetUncommittedChanges] ∧
      (HandleRegisterUser NewUser h ctx cmd s).store =
        (h.eventStore.SaveEvents s ctx u.GetID u.GetUncommittedChanges).2) ∧
    (∀ e, NewUser cmd.Username cmd.Password = .error e →
      saveEventsCalls (HandleRegisterUser NewUser h ctx cmd s).calls = [] ∧
      (HandleRegisterUser NewUser h ctx cmd s).store = s) := by
  rcases HandleRegisterUser_cases NewUser h ctx cmd s with
    ⟨e, hnew⟩ | ⟨u, e, s', hnew, hsave⟩ | ⟨u, s', hnew, hsave⟩
  · rw [HandleRegisterUser_of_newUser_error NewUser h ctx cmd s e hnew]
    simp [saveEventsCalls, hnew]
  · rw [HandleRegisterUser_of_save_error NewUser h ctx cmd s s' u e hnew hsave]
    refine ⟨by simp [saveEventsCalls], ?_, ?_⟩
    · intro v hv
      have huv : u = v := by simpa [hnew] using hv
      subst huv
      simp [saveEventsCalls, hsave]
    · intro e' he'
      simp [hnew] at he'
  · rw [HandleRegisterUser_of_save_ok NewUser h ctx cmd s s' u hnew hsave]
    refine ⟨by simp [saveEventsCalls], ?_, ?_⟩
    · intro v hv
      have huv : u = v := by simpa [hnew] using hv
      subst huv
      simp [saveEventsCalls, hsave]
    · intro e' he'
      simp [hnew] at he'

/-- C5: the uncommitted-events buffer is cleared only after a successful
commit.  `ClearUncommittedChanges` is called if and only if `SaveEvents` was
called and returned no error; when it is called it is the last call, right
after `SaveEvents`; every returned user has an empty buffer, and its id and
version are those of the aggregate whose events were saved. -/
theorem HandleRegisterUser_clears_only_after_commit
    (NewUser : String → String → Except GoError User)
    (h : userCommandHandler σ) (ctx : Context) (cmd : RegisterUserCommand) (s : σ) :
    (Call.ClearUncommittedChanges ∈ (HandleRegisterUser NewUser h ctx cmd s).calls ↔
      ∃ u s', NewUser cmd.Username cmd.Password = .ok u ∧
        h.eventStore.SaveEvents s ctx u.GetID u.GetUncommittedChanges = (none, s')) ∧
    (Call.ClearUncommittedChanges ∈ (HandleRegisterUser NewUser h ctx cmd s).calls →
      ∃ u : User, (HandleRegisterUser NewUser h ctx cmd s).calls =
        [.NewUser cmd.Username cmd.Password,
         .SaveEvents ctx u.GetID u.GetUncommittedChanges,
         .ClearUncommittedChanges]) ∧
    (∀ u', (HandleRegisterUser NewUser h ctx cmd s).user = some u' →
      u'.GetUncommittedChanges = [] ∧
      ∃ u, NewUser cmd.Username cmd.Password = .ok u ∧
        Call.SaveEvents ctx u.GetID u.GetUncommittedChanges ∈
          (HandleRegisterUser NewUser h ctx cmd s).calls ∧
        u'.GetID = u.GetID ∧ u'.version = u.version) := by
  rcases HandleRegisterUser_cases NewUser h ctx cmd s with
    ⟨e, hnew⟩ | ⟨u, e, s', hnew, hsave⟩ | ⟨u, s', hnew, hsave⟩
  · rw [HandleRegisterUser_of_newUser_error NewUser h ctx cmd s e hnew]
    simp [hnew]
  · rw [HandleRegisterUser_of_save_error NewUser h ctx cmd s s' u e hnew hsave]
    simp [hnew, hsave]
  · rw [HandleRegisterUser_of_save_ok NewUser h ctx cmd s s' u hnew hsave]
    refine ⟨?_, ?_, ?_⟩
    · simp [hnew, hsave]
    · intro _
      exact ⟨u, rfl⟩
    · intro u' hu'
      have huu : u.ClearUncommittedChanges = u' := by simpa using hu'
      subst huu
      exact ⟨rfl, u, hnew, by simp, rfl, rfl⟩

/-- What a successful spec-level registration returns: an aggregate at version
1 whose buffer holds exactly one event, a `UserRegistered` event at version 1
carrying the aggregate's id, the username and the password hash. -/
theorem specNewUser_ok (r : Registration) (username password : String) (u : User)
    (hnew : specNewUser r username password = .ok u) :
    u.version = 1 ∧ u.username = username ∧
    ∃ e, u.uncommittedEvents = [e] ∧ e.eventType = UserRegistered ∧ e.aggregateID = u.id ∧
      e.version = 1 ∧ e.payload.lookup "id" = some u.id ∧
      e.payload.lookup "username" = some username ∧
      e.payload.lookup "passwordHash" = some u.passwordHash := by
  unfold specNewUser at hnew
  split_ifs at hnew with h1 h2
  cases hh : r.hashPassword password with
  | error e => simp [hh] at hnew
  | ok hash =>
    simp only [hh, Except.ok.injEq] at hnew
    subst hnew
    simp [User.apply, UserRegistered, List.lookup]

/-- C2: for a valid `RegisterUser` command (spec-level aggregate creation
succeeds) and an event store that accepts the append, `HandleRegisterUser`
returns a user whose version is 1, and its one `SaveEvents` call carries exactly
one event, a `UserRegistered` event with that user's id. -/
theorem HandleRegisterUser_registers_at_version_one (r : Registration)
    (h : userCommandHandler σ) (ctx : Context) (cmd : RegisterUserCommand) (s s' : σ) (u : User)
    (hnew : specNewUser r cmd.Username cmd.Password = .ok u)
    (hsave : h.eventStore.SaveEvents s ctx u.GetID u.GetUncommittedChanges = (none, s')) :
    ∃ u' e, (HandleRegisterUser (specNewUser r) h ctx cmd s).user = some u' ∧
      (HandleRegisterUser (specNewUser r) h ctx cmd s).err = none ∧
      (HandleRegisterUser (specNewUser r) h ctx cmd s).store = s' ∧
      u'.version = 1 ∧
      saveEventsCalls (HandleRegisterUser (specNewUser r) h ctx cmd s).calls =
        [.SaveEvents ctx u'.GetID [e]] ∧
      e.eventType = UserRegistered ∧ e.aggregateID = u'.GetID := by
  obtain ⟨hv, -, e, hev, hty, hid, -⟩ := specNewUser_ok r cmd.Username cmd.Password u hnew
  refine ⟨u.ClearUncommittedChanges, e, ?_⟩
  rw [HandleRegisterUser_of_save_ok (specNewUser r) h ctx cmd s s' u hnew hsave]
  refine ⟨rfl, rfl, rfl, hv, ?_, hty, hid⟩
  simp [saveEventsCalls, User.GetUncommittedChanges, User.GetID, User.ClearUncommittedChanges, hev]

/-- C2 at `alice` over the empty in-memory store: creation succeeds, the store
accepts and afterwards holds exactly the one registration event. -/
theorem HandleRegisterUser_registers_at_version_one_witness :
    specNewUser sampleRegistration aliceCommand.Username aliceCommand.Password = .ok aliceUser ∧
    sampleHandler.eventStore.SaveEvents [] sampleContext aliceUser.GetID
      aliceUser.GetUncommittedChanges = (none, [aliceRegistered]) ∧
    ∃ u' e,
      (HandleRegisterUser (specNewUser sampleRegistration) sampleHandler sampleContext
        aliceCommand []).user = some u' ∧
      (HandleRegisterUser (specNewUser sampleRegistration) sampleHandler sampleContext
        aliceCommand []).err = none ∧
      (HandleRegisterUser (specNewUser sampleRegistration) sampleHandler sampleContext
        aliceCommand []).store = [aliceRegistered] ∧
      u'.version = 1 ∧
      saveEventsCalls (HandleRegisterUser (specNewUser sampleRegistration) sampleHandler
        sampleContext aliceCommand []).calls = [.SaveEvents sampleContext u'.GetID [e]] ∧
      e.eventType = UserRegistered ∧ e.aggregateID = u'.GetID :=
  ⟨by rfl, by decide,
    HandleRegisterUser_registers_at_version_one sampleRegistration sampleHandler sampleContext
      aliceCommand [] [aliceRegistered] aliceUser (by rfl) (by decide)⟩

/-- C3, as stated, fails at `alice`: the append succeeds and the store holds the
registration event, yet the handler hands no event to the Event Publisher; its
calls are `NewUser`, `SaveEvents`, `ClearUncommittedChanges` and nothing
else. -/
theorem HandleRegisterUser_alice_not_published :
    (HandleRegisterUser (specNewUser sampleRegistration) sampleHandler sampleContext
      aliceCommand []).err = none ∧
    (HandleRegisterUser (specNewUser sampleRegistration) sampleHandler sampleContext
      aliceCommand []).store = [aliceRegistered] ∧
    (HandleRegisterUser (specNewUser sampleRegistration) sampleHandler sampleContext
      aliceCommand []).calls =
      [.NewUser "alice" "correct-horse",
       .SaveEvents sampleContext "dcart:alice" [aliceRegistered],
       .ClearUncommittedChanges] ∧
    Call.Publish aliceRegistered ∉
      (HandleRegisterUser (specNewUser sampleRegistration) sampleHandler sampleContext
        aliceCommand []).calls ∧
    publishedEvents (HandleRegisterUser (specNewUser sampleRegistration) sampleHandler
      sampleContext aliceCommand []).calls ≠ [aliceRegistered] := by
  have hrun := HandleRegisterUser_of_save_ok (specNewUser sampleRegistration) sampleHandler
    sampleContext aliceCommand [] [aliceRegistered] aliceUser (by rfl) (by decide)
  rw [hrun]
  refine ⟨rfl, rfl, by decide, by decide, by decide⟩

/-- C3, amended: for every `RegisterUser` command whose append succeeds, the
handler hands the aggregate's events to `SaveEvents` in the order the aggregate
produced them, then clears the uncommitted-events buffer, and makes no call on
an Event Publisher. -/
theorem HandleRegisterUser_saves_then_clears_without_publishing
    (NewUser : String → String → Except GoError User)
    (h : userCommandHandler σ) (ctx : Context) (cmd : RegisterUserCommand) (s s' : σ) (u : User)
    (hnew : NewUser cmd.Username cmd.Password = .ok u)
    (hsave : h.eventStore.SaveEvents s ctx u.GetID u.GetUncommittedChanges = (none, s')) :
    (HandleRegisterUser NewUser h ctx cmd s).calls =
      [.NewUser cmd.Username cmd.Password,
       .SaveEvents ctx u.GetID u.uncommittedEvents,
       .ClearUncommittedChanges] ∧
    publishedEvents (HandleRegisterUser NewUser h ctx cmd s).calls = [] ∧
    (HandleRegisterUser NewUser h ctx cmd s).user = some { u with uncommittedEvents := [] } := by
  rw [HandleRegisterUser_of_save_ok NewUser h ctx cmd s s' u hnew hsave]
  exact ⟨rfl, rfl, rfl⟩

/-- The amended C3 at `alice` over the empty in-memory store. -/
theorem HandleRegisterUser_saves_then_clears_without_publishing_witness :
    (HandleRegisterUser (specNewUser sampleRegistration) sampleHandler sampleContext
      aliceCommand []).calls =
      [.NewUser aliceCommand.Username aliceCommand.Password,
       .SaveEvents sampleContext aliceUser.GetID aliceUser.uncommittedEvents,
       .ClearUncommittedChanges] ∧
    publishedEvents (HandleRegisterUser (specNewUser sampleRegistration) sampleHandler
      sampleContext aliceCommand []).calls = [] ∧
    (HandleRegisterUser (specNewUser sampleRegistration) sampleHandler sampleContext
      aliceCommand []).user = some { aliceUser with uncommittedEvents := [] } :=
  HandleRegisterUser_saves_then_clears_without_publishing (specNewUser sampleRegistration)
    sampleHandler sampleContext aliceCommand [] [aliceRegistered] aliceUser (by rfl) (by decide)

/-- C1 on two rejected commands: an empty username comes back as the
aggregate's `InvalidUsername`, and registering `alice` over a store that
already holds her first event comes back as the store's
`ConcurrencyConflict`, each with a nil user. -/
theorem HandleRegisterUser_returns_errors_unchanged_witness :
    ((HandleRegisterUser (specNewUser sampleRegistration) sampleHandler sampleContext
        namelessCommand []).user = none ∧
      (HandleRegisterUser (specNewUser sampleRegistration) sampleHandler sampleContext
        namelessCommand []).err = some (.other "InvalidUsername")) ∧
    ((HandleRegisterUser (specNewUser sampleRegistration) sampleHandler sampleContext
        aliceCommand [aliceRegistered]).user = none ∧
      (HandleRegisterUser (specNewUser sampleRegistration) sampleHandler sampleContext
        aliceCommand [aliceRegistered]).err = some (.other "ConcurrencyConflict")) :=
  ⟨(HandleRegisterUser_returns_errors_unchanged (specNewUser sampleRegistration) sampleHandler
      sampleContext namelessCommand []).1 (.other "InvalidUsername") (by rfl),
   (HandleRegisterUser_returns_errors_unchanged (specNewUser sampleRegistration) sampleHandler
      sampleContext aliceCommand [aliceRegistered]).2.1 aliceUser (.other "ConcurrencyConflict")
      [aliceRegistered] (by rfl) (by decide)⟩

/-- C4 on a conflicting append: registering `alice` over a store that already
holds her first event calls `SaveEvents` once, and the store is left as that
one refused call left it. -/
theorem HandleRegisterUser_saves_at_most_once_witness :
    saveEventsCalls (HandleRegisterUser (specNewUser sampleRegistration) sampleHandler
      sampleContext aliceCommand [aliceRegistered]).calls =
      [.SaveEvents sampleContext aliceUser.GetID aliceUser.GetUncommittedChanges] ∧
    (HandleRegisterUser (specNewUser sampleRegistration) sampleHandler sampleContext
      aliceCommand [aliceRegistered]).store =
      (sampleHandler.eventStore.SaveEvents [aliceRegistered] sampleContext aliceUser.GetID
        aliceUser.GetUncommittedChanges).2 :=
  (HandleRegisterUser_saves_at_most_once (specNewUser sampleRegistration) sampleHandler
    sampleContext aliceCommand [aliceRegistered]).2.1 aliceUser (by rfl)

/-- C5 at `alice` over the empty in-memory store: the returned user has an
empty buffer and the id and version of the aggregate that was saved. -/
theorem HandleRegisterUser_clears_only_after_commit_witness :
    User.GetUncommittedChanges { aliceUser with uncommittedEvents := [] } = [] ∧
    ∃ u, specNewUser sampleRegistration aliceCommand.Username aliceCommand.Password = .ok u ∧
      Call.SaveEvents sampleContext u.GetID u.GetUncommittedChanges ∈
        (HandleRegisterUser (specNewUser sampleRegistration) sampleHandler sampleContext
          aliceCommand []).calls ∧
      User.GetID { aliceUser with uncommittedEvents := [] } = u.GetID ∧
      User.version { aliceUser with uncommittedEvents := [] } = u.version :=
  (HandleRegisterUser_clears_only_after_commit (specNewUser sampleRegistration) sampleHandler
    sampleContext aliceCommand []).2.2 { aliceUser with uncommittedEvents := [] }
    (by rw [HandleRegisterUser_of_save_ok (specNewUser sampleRegistration) sampleHandler
        sampleContext aliceCommand [] [aliceRegistered] aliceUser (by rfl) (by decide)]; rfl)

end Handler

/-! ## Theorems: the HTTP responder -/

section Responder

/-- An `errorResponse` always marshals, to the JSON object with the one key
`error`. -/
theorem jsonMarshal_errorResponse (msg : String) :
    jsonMarshal (.errorResponse msg) = .ok ("\x7b\"error\":" ++ encodeString msg ++ "\x7d") :=
  rfl

/-- The body written for the message `unknown`. -/
theorem errorBody_unknown :
    "\x7b\"error\":" ++ encodeString ErrUnknown.Error ++ "\x7d" = "\x7b\"error\":\"unknown\"\x7d" := by
  decide

/-- A payload that marshals is answered within one frame: header, requested
status, marshalled bytes; nothing is logged. -/
theorem RespondWithJSON_of_marshal_ok (n : Nat) (x : Exchange) (code : Int) (payload : Payload)
    (data : String) (hm : jsonMarshal payload = .ok data) :
    RespondWithJSON (n + 1) x code payload =
      some { w := x.w ++ [.HeaderSet "Content-Type" "application/json", .WriteHeader code,
                          .Write data],
             logger := x.logger } := by
  simp [RespondWithJSON, hm]

/-- The run of `RespondWithError` within two frames. -/
theorem RespondWithError_eq (n : Nat) (x : Exchange) (code : Int) (msg : String)
    (err : Option GoError) :
    RespondWithError (n + 2) x code msg err =
      some { w := x.w ++ [.HeaderSet "Content-Type" "application/json", .WriteHeader code,
                          .Write ("\x7b\"error\":" ++ encodeString msg ++ "\x7d")],
             logger := x.logger ++
               (match err with
                | some e => [.Println e]
                | none => []) ++
               (if code > 499 then [.Printf "Responding with 5XX error: %s" msg] else []) } := by
  simp only [RespondWithError]
  rw [RespondWithJSON_of_marshal_ok n _ code _ _ (jsonMarshal_errorResponse msg)]
  cases err <;> by_cases hc : code > 499 <;> simp [hc]

/-- A payload that does not marshal is answered within three frames with the
fixed failure response, after logging the marshalling error. -/
theorem RespondWithJSON_of_marshal_error (n : Nat) (x : Exchange) (code : Int)
    (payload : Payload) (e : GoError) (hm : jsonMarshal payload = .error e) :
    RespondWithJSON (n + 3) x code payload =
      some { w := x.w ++ [.HeaderSet "Content-Type" "application/json",
                          .HeaderSet "Content-Type" "application/json",
                          .WriteHeader 500, .Write "\x7b\"error\":\"unknown\"\x7d"],
             logger := x.logger ++ [.Println e,
                          .Printf "Responding with 5XX error: %s" "unknown"] } := by
  simp only [RespondWithJSON, hm]
  rw [RespondWithError_eq, errorBody_unknown]
  simp [StatusInternalServerError, ErrUnknown, GoError.Error]

/-- C6: `RespondWithError` answers with a failure that does not depend on
`err`.  For every status code, message and pair of error values (nil included)
the calls on the response writer are the same: `Content-Type` set to
`application/json`, status `code`, body the JSON object with the one key
`error` holding `msg`.  `err` reaches only the logger: it is logged when it is
non-nil, and `msg` is logged in addition when `code > 499`. -/
theorem RespondWithError_response_independent_of_err (n : Nat) (x : Exchange) (code : Int)
    (msg : String) (err1 err2 : Option GoError) :
    (RespondWithError (n + 2) x code msg err1).map Exchange.w =
      some (x.w ++ [.HeaderSet "Content-Type" "application/json", .WriteHeader code,
                    .Write ("\x7b\"error\":" ++ encodeString msg ++ "\x7d")]) ∧
    (RespondWithError (n + 2) x code msg err1).map Exchange.w =
      (RespondWithError (n + 2) x code msg err2).map Exchange.w ∧
    (RespondWithError (n + 2) x code msg err1).map Exchange.logger =
      some (x.logger ++
        (match err1 with
         | some e => [.Println e]
         | none => []) ++
        (if code > 499 then [.Printf "Responding with 5XX error: %s" msg] else [])) := by
  rw [RespondWithError_eq, RespondWithError_eq]
  exact ⟨rfl, rfl, rfl⟩

/-- C6 at status 500 with the message `internal error`: a refused database
connection and a nil error give the same calls on the response writer. -/
theorem RespondWithError_response_independent_of_err_witness :
    (RespondWithError 2 freshExchange 500 "internal error" (some connectionRefused)).map
        Exchange.w =
      some [.HeaderSet "Content-Type" "application/json", .WriteHeader 500,
            .Write "\x7b\"error\":\"internal error\"\x7d"] ∧
    (RespondWithError 2 freshExchange 500 "internal error" (some connectionRefused)).map
        Exchange.w =
      (RespondWithError 2 freshExchange 500 "internal error" none).map Exchange.w :=
  ⟨((RespondWithError_response_independent_of_err 0 freshExchange 500 "internal error"
      (some connectionRefused) none).1).trans (by decide),
   (RespondWithError_response_independent_of_err 0 freshExchange 500 "internal error"
      (some connectionRefused) none).2.1⟩

/-- C8: when marshalling the payload fails, `RespondWithJSON` writes status 500
whatever the requested code, the body `{"error":"unknown"}` and `Content-Type`
`application/json`, and logs the marshalling error; when the payload marshals,
it writes the requested code, `Content-Type` `application/json` and the
marshalled bytes and logs nothing.  Either way `WriteHeader` is called exactly
once. -/
theorem RespondWithJSON_marshal_failure_is_500 (n : Nat) (x : Exchange) (code : Int)
    (payload : Payload) :
    (∀ e, jsonMarshal payload = .error e →
      RespondWithJSON (n + 3) x code payload =
        some { w := x.w ++ [.HeaderSet "Content-Type" "application/json",
                            .HeaderSet "Content-Type" "application/json",
                            .WriteHeader 500, .Write "\x7b\"error\":\"unknown\"\x7d"],
               logger := x.logger ++ [.Println e,
                            .Printf "Responding with 5XX error: %s" "unknown"] }) ∧
    (∀ data, jsonMarshal payload = .ok data →
      RespondWithJSON (n + 1) x code payload =
        some { w := x.w ++ [.HeaderSet "Content-Type" "application/json", .WriteHeader code,
                            .Write data],
               logger := x.logger }) ∧
    (∀ x', RespondWithJSON (n + 3) x code payload = some x' →
      (writeHeaderCalls x'.w).length = (writeHeaderCalls x.w).length + 1) := by
  refine ⟨fun e hm => RespondWithJSON_of_marshal_error n x code payload e hm,
    fun data hm => RespondWithJSON_of_marshal_ok n x code payload data hm, ?_⟩
  intro x' hx'
  cases hm : jsonMarshal payload with
  | error e =>
    rw [RespondWithJSON_of_marshal_error n x code payload e hm] at hx'
    cases hx'
    simp [writeHeaderCalls, List.filter_append]
  | ok data =>
    rw [RespondWithJSON_of_marshal_ok (n + 2) x code payload data hm] at hx'
    cases hx'
    simp [writeHeaderCalls, List.filter_append]

/-- C8 on a channel payload with requested status 201 and on an array payload
with requested status 200. -/
theorem RespondWithJSON_marshal_failure_is_500_witness :
    RespondWithJSON 3 freshExchange 201 channelPayload =
      some { w := [.HeaderSet "Content-Type" "application/json",
                   .HeaderSet "Content-Type" "application/json",
                   .WriteHeader 500, .Write "\x7b\"error\":\"unknown\"\x7d"],
             logger := [.Println (.other "json: unsupported type: chan int"),
                        .Printf "Responding with 5XX error: %s" "unknown"] } ∧
    RespondWithJSON 1 freshExchange 200 arrayPayload =
      some { w := [.HeaderSet "Content-Type" "application/json", .WriteHeader 200,
                   .Write "[1,2]"],
             logger := [] } :=
  ⟨(RespondWithJSON_marshal_failure_is_500 0 freshExchange 201 channelPayload).1
      (.other "json: unsupported type: chan int") rfl,
   (RespondWithJSON_marshal_failure_is_500 0 freshExchange 200 arrayPayload).2.1 "[1,2]" rfl⟩

/-- C10: the mutual recursion ends for every input.  An `errorResponse` always
marshals, so a `RespondWithJSON` call made by `RespondWithError` returns within
one frame; hence `RespondWithError` returns within two frames and
`RespondWithJSON` within three (`RespondWithJSON`, `RespondWithError`,
`RespondWithJSON`: two nested `RespondWithJSON` calls and one
`RespondWithError`), and a larger bound changes nothing. -/
theorem Respond_calls_return_within_three_frames (x : Exchange) (code : Int) :
    (∀ msg, ∃ data, jsonMarshal (.errorResponse msg) = .ok data) ∧
    (∀ msg, (RespondWithJSON 1 x code (.errorResponse msg)).isSome) ∧
    (∀ msg err, (RespondWithError 2 x code msg err).isSome) ∧
    (∀ payload, (RespondWithJSON 3 x code payload).isSome) ∧
    (∀ n msg err, RespondWithError (n + 2) x code msg err = RespondWithError 2 x code msg err) ∧
    (∀ n payload, RespondWithJSON (n + 3) x code payload = RespondWithJSON 3 x code payload) := by
  refine ⟨fun msg => ⟨_, jsonMarshal_errorResponse msg⟩, ?_, ?_, ?_, ?_, ?_⟩
  · intro msg
    rw [RespondWithJSON_of_marshal_ok 0 x code _ _ (jsonMarshal_errorResponse msg)]
    rfl
  · intro msg err
    rw [RespondWithError_eq 0]
    rfl
  · intro payload
    cases hm : jsonMarshal payload with
    | error e =>
      rw [RespondWithJSON_of_marshal_error 0 x code payload e hm]
      rfl
    | ok data =>
      rw [RespondWithJSON_of_marshal_ok 2 x code payload data hm]
      rfl
  · intro n msg err
    rw [RespondWithError_eq n, RespondWithError_eq 0]
  · intro n payload
    cases hm : jsonMarshal payload with
    | error e =>
      rw [RespondWithJSON_of_marshal_error n x code payload e hm,
        RespondWithJSON_of_marshal_error 0 x code payload e hm]
    | ok data =>
      rw [RespondWithJSON_of_marshal_ok (n + 2) x code payload data hm,
        RespondWithJSON_of_marshal_ok 2 x code payload data hm]

/-- C10 on a channel payload: the call returns within three frames, and two
frames are not enough, so the chain `RespondWithJSON`, `RespondWithError`,
`RespondWithJSON` is indeed taken. -/
theorem Respond_calls_return_within_three_frames_witness :
    (RespondWithJSON 3 freshExchange 201 channelPayload).isSome = true ∧
    RespondWithJSON 2 freshExchange 201 channelPayload = none :=
  ⟨(Respond_calls_return_within_three_frames freshExchange 201).2.2.2.1 channelPayload, rfl⟩

end Responder

/-! ## Theorems: the user repository -/

section Repository

open Postgres

variable {σ : Type}

/-- A sentinel other than `sql.ErrNoRows` neither is nor wraps it. -/
theorem errorsIs_sqlErrNoRows_of_sentinel :
    GoError.errorsIs .ErrUserNotFound .sqlErrNoRows = false ∧
    GoError.errorsIs .ErrUserAlreadyExists .sqlErrNoRows = false := by
  decide

/-- The answer of a method that ends in the common error translation meets the
contract `translatesNoRows`. -/
theorem translatesNoRows_of_answer (sentinel : GoError)
    (toDomain : DbUser → Option Postgres.User)
    (query : (DbUser × Option GoError) × σ) (out : Outcome (Reply σ))
    (hs : sentinel.isStorageError = false)
    (hout : out =
      match query.1.2 with
      | some err =>
        if GoError.errorsIs err .sqlErrNoRows then
          .ret { user := none, err := some sentinel, db := query.2 }
        else
          .ret { user := none, err := some err, db := query.2 }
      | none => .ret { user := toDomain query.1.1, err := none, db := query.2 }) :
    translatesNoRows sentinel toDomain query out := by
  unfold translatesNoRows
  cases hq : query.1.2 with
  | none => simpa [hq] using hout
  | some e =>
    simp only [hq] at hout
    cases his : GoError.errorsIs e .sqlErrNoRows with
    | true =>
      have hout' : out = .ret { user := none, err := some sentinel, db := query.2 } := by
        simpa [his] using hout
      exact ⟨fun _ => hout', fun h => (by rw [his] at h; cases h),
        fun _ => ⟨fun _ => his, fun _ => hout'⟩⟩
    | false =>
      have hout' : out = .ret { user := none, err := some e, db := query.2 } := by
        simpa [his] using hout
      refine ⟨fun h => (by rw [his] at h; cases h), fun _ => hout', fun hst => ?_⟩
      constructor
      · intro h
        rw [hout'] at h
        have hes : e = sentinel := by
          injection h with h1
          injection h1 with _ h2 _
          injection h2
        rw [hes, hs] at hst
        exact absurd hst (by decide)
      · intro h
        rw [his] at h
        cases h

/-- C9: the user repository translates exactly one storage error.  For each
of `CreateUser`, `GetUserByID` and `GetUserByUsername` (called with non-nil
pointers): a query error that is or wraps `sql.ErrNoRows` is answered with a nil
user and the method's sentinel (`ErrUserAlreadyExists` for `CreateUser`,
`ErrUserNotFound` for the lookups); every other query error is returned
unchanged with a nil user; for a storage error the sentinel is the answer if
and only if the error is or wraps `sql.ErrNoRows`; and when the query succeeds
the answer is the domain conversion of the returned row with a nil error. -/
theorem userRepository_translates_no_rows (r : userRepository σ) (ctx : Context) (s : σ)
    (userObj : Postgres.User) (userID : UUID) (username : String) :
    translatesNoRows .ErrUserAlreadyExists r.queries.ToUserDomain
      (r.queries.CreateUser s ctx
        { Username := userObj.Username, PasswordHash := userObj.PasswordHash })
      (CreateUser r ctx (some userObj) s) ∧
    translatesNoRows .ErrUserNotFound r.queries.ToUserDomain
      (r.queries.GetUserByID s ctx userID) (GetUserByID r ctx (some userID) s) ∧
    translatesNoRows .ErrUserNotFound r.queries.ToUserDomain
      (r.queries.GetUserByUsername s ctx username) (GetUserByUsername r ctx username s) := by
  refine ⟨?_, ?_, ?_⟩
  · refine translatesNoRows_of_answer GoError.ErrUserAlreadyExists _ _ _ rfl ?_
    simp only [CreateUser]
  · refine translatesNoRows_of_answer GoError.ErrUserNotFound _ _ _ rfl ?_
    simp only [GetUserByID]
  · refine translatesNoRows_of_answer GoError.ErrUserNotFound _ _ _ rfl ?_
    simp only [GetUserByUsername]

/-- C9 over the in-memory table: a lookup by id in an empty table answers
`ErrUserNotFound`; an insert of a taken username answers
`ErrUserAlreadyExists`; a lookup under a cancelled context returns the wrapped
`context canceled` unchanged; an insert into an empty table returns the
converted row. -/
theorem userRepository_translates_no_rows_witness :
    GetUserByID tableRepository sampleContext (some ⟨"id-alice"⟩) [] =
      .ret { user := none, err := some .ErrUserNotFound, db := [] } ∧
    CreateUser tableRepository sampleContext (some alice) [aliceRow] =
      .ret { user := none, err := some .ErrUserAlreadyExists, db := [aliceRow] } ∧
    GetUserByUsername tableRepository cancelledContext "alice" [aliceRow] =
      .ret { user := none,
             err := some (.wrap "get user: context canceled" (.other "context canceled")),
             db := [aliceRow] } ∧
    CreateUser tableRepository sampleContext (some alice) [] =
      .ret { user := some alice, err := none, db := [aliceRow] } :=
  ⟨(userRepository_translates_no_rows tableRepository sampleContext [] alice ⟨"id-alice"⟩
      "alice").2.1.1 rfl,
   (userRepository_translates_no_rows tableRepository sampleContext [aliceRow] alice
      ⟨"id-alice"⟩ "alice").1.1 rfl,
   (userRepository_translates_no_rows tableRepository cancelledContext [aliceRow] alice
      ⟨"id-alice"⟩ "alice").2.2.2.1 rfl,
   (userRepository_translates_no_rows tableRepository sampleContext [] alice ⟨"id-alice"⟩
      "alice").1⟩

/-- Why the converse in C9 speaks of storage errors: a query error that is
already the domain's `ErrUserNotFound` is not `sql.ErrNoRows`, and the lookup
hands it back unchanged like any other error. -/
theorem GetUserByID_hands_back_any_other_error (r : userRepository σ) (ctx : Context) (s s' : σ)
    (userID : UUID) (row : DbUser) (e : GoError)
    (hq : r.queries.GetUserByID s ctx userID = ((row, some e), s'))
    (he : GoError.errorsIs e .sqlErrNoRows = false) :
    GetUserByID r ctx (some userID) s = .ret { user := none, err := some e, db := s' } := by
  simp [GetUserByID, hq, he]

end Repository

/-! ## Theorems: the token wiring -/

/-- C7: the token lifetimes wired at start-up.  The JWT service gets a
validity of exactly 15 minutes (900 seconds), the refresh-token repository an
expiry of exactly 7 days (`24*7` hours, 604800 seconds), both within `int64`;
the access-token lifetime is strictly shorter than the refresh-token lifetime;
refresh tokens are generated with the leading namespace `dc_`. -/
theorem main_wires_documented_token_lifetimes :
    mainTokenWiring.jwtValidity = 15 * Minute ∧
    mainTokenWiring.jwtValidity.wholeSeconds = 900 ∧
    mainTokenWiring.tokenRepoExpiry = 7 * (24 * Hour) ∧
    mainTokenWiring.tokenRepoExpiry = 24 * 7 * Hour ∧
    mainTokenWiring.tokenRepoExpiry.wholeSeconds = 604800 ∧
    mainTokenWiring.jwtValidity < mainTokenWiring.tokenRepoExpiry ∧
    fitsInt64 mainTokenWiring.jwtValidity = true ∧
    fitsInt64 mainTokenWiring.tokenRepoExpiry = true ∧
    mainTokenWiring.refreshTokenLead = "dc_" := by
  decide

end DcartAuth
